import Mathlib

/-!
Shallow embedding of the thoth package-releases job (app.py) and proofs
about its reconciliation engine, notification dispatcher, CLI argument
validation and metrics accounting.

The program is single-threaded and effectful; we model each effectful
call site as an emitted `Event` so that a run of the program denotes a
list of events (its trace) together with the final store state.  The
external collaborators (package index client, graph store, HTTP delivery)
are passed in as explicit data / oracle functions, mirroring the
interfaces the code calls.
-/

namespace PackageReleases

/-- A stored package-version entity, as returned by the graph store's
create operation; the code reads `entity.package_name` and
`entity.package_version` from it when dispatching notifications. -/
structure Entity where
  package_name : String
  package_version : String
deriving DecidableEq, Repr

/-- One notification trigger from the monitoring configuration: a URL
template and the optional "tls_verify" flag (absent key modelled as
`none`; `trigger.get ("tls_verify", True)` defaults to verify). -/
structure Trigger where
  url : String
  tls_verify : Option Bool
deriving DecidableEq, Repr

/-- The monitoring configuration: the Python dict mapping package name to
its per-package configuration, of which the code reads the "triggers"
list.  Modelled as an association list with unique keys. -/
def MonitoredPackages := List (String × List Trigger)

/-- Outcome of `package_index.get_package_versions(name)`: a version
list, a NotFound exception, or any other exception. -/
inductive VersionsResult where
  | ok (versions : List String)
  | notFound
  | err
deriving DecidableEq

/-- A package index as consumed by the engine: its URL, the catalog
returned by `get_packages()`, and the per-package outcome of
`get_package_versions`. -/
structure Index where
  url : String
  packages : List String
  versions : String → VersionsResult

/-- The graph store client over an abstract store state `σ`:
`create` models `create_python_package_version_entity` (returning the
Python `None` sentinel or an `(entity, existed_before)` pair plus the
updated store state) and `catalog` models
`get_python_package_version_entities_names_all`. -/
structure Graph (σ : Type) where
  create : σ → String → String → String → Bool → Option (Entity × Bool) × σ
  catalog : σ → List String

/-- Every observable effect / log line of the job, in program order.
`createCall` records the store write together with its result;
`deliveryAttempt` records one `requests.post` of the dispatcher with the
rendered URL, the optional `verify=` keyword and whether it succeeded
(2xx); the `...Inc` events are the Prometheus counter increments. -/
inductive Event where
  | indexCheck (indexUrl : String)
  | versionsQuery (indexUrl packageName : String)
  | skipNotFound (packageName : String)
  | skipError (packageName : String)
  | createCall (name version indexUrl : String) (onlyIfSeen : Bool)
      (result : Option (Entity × Bool))
  | sentinelDebug (name version indexUrl : String)
  | newReleaseInfo (name version indexUrl : String)
  | addedInc
  | alreadyPresentDebug (name version indexUrl : String)
  | deliveryAttempt (renderedUrl : String) (verify : Option Bool)
      (name version indexUrl : String) (success : Bool)
  | notifyFailLog (name version : String)
  | notifiedInc
  | storeConnect
  | catalogQuery
  | monitoringLoad
  | pushAttempt (gateway : String)
  | pushFailLog
deriving DecidableEq, Repr

/-- Count the events of a trace satisfying a predicate. -/
def countEvents (p : Event → Bool) (es : List Event) : Nat :=
  (es.filter p).length

/-! ### URL template rendering

`trigger["url"].format(**os.environ, package_name=..., ...)` performs
Python placeholder substitution.  We model the common subset used by the
configuration: `{name}` placeholders looked up in an environment; a
missing key (Python KeyError) or an unterminated brace yields `none`,
which the dispatcher's per-trigger exception handler turns into a logged
failure with no delivery attempt. -/

/-- Look up a key in an association-list environment. -/
def lookupEnv (env : List (String × String)) (k : String) : Option String :=
  (env.find? (fun p => p.1 == k)).map Prod.snd

/-- Python `s.startswith(pre)`, on the character lists of the strings. -/
def strStartsWith (s pre : String) : Bool :=
  pre.data.isPrefixOf s.data

/-- Substitute `\x7bname\x7d` placeholders in a character list; the first
argument is `some acc` while scanning a placeholder name (accumulated in
reverse) and `none` outside one.  An unterminated placeholder yields
`none` (Python ValueError). -/
def pyFormatCore (env : List (String × String)) :
    Option (List Char) → List Char → Option (List Char)
  | none, [] => some []
  | none, c :: rest =>
    if c = '{' then pyFormatCore env (some []) rest
    else (pyFormatCore env none rest).map (fun t => c :: t)
  | some _, [] => none
  | some acc, c :: rest =>
    if c = '}' then
      match lookupEnv env (String.mk acc.reverse) with
      | some v => (pyFormatCore env none rest).map (fun t => v.data ++ t)
      | none => none
    else pyFormatCore env (some (c :: acc)) rest

/-- Render a URL template against an environment, Python `str.format`
style; `none` models a KeyError / ValueError raised during rendering. -/
def pyFormat (env : List (String × String)) (s : String) : Option String :=
  (pyFormatCore env none s.data).map String.mk

/-! ### Notification dispatcher (`release_notification`, app.py lines 97-141) -/

/-- The triggers registered for a package:
`monitored_packages.get(package_name, \x7b\x7d).get("triggers") or []`. -/
def getTriggers (m : MonitoredPackages) (name : String) : List Trigger :=
  match m.find? (fun p => p.1 == name) with
  | some p => p.2
  | none => []

/-- Ambient data of the dispatcher: the process environment, the fixed
deployment name, and the HTTP delivery oracle `post rendered verify`
returning whether `requests.post` plus `raise_for_status` succeeded. -/
structure NotifyCtx where
  osEnv : List (String × String)
  deploymentName : String
  post : String → Option Bool → Bool

/-- The keyword environment of the `format` call: `**os.environ` merged
with the four fixed substitution values (Python rejects duplicate
keywords, so the two parts are disjoint and order is immaterial). -/
def fullEnv (ctx : NotifyCtx) (name ver idxUrl : String) : List (String × String) :=
  ctx.osEnv ++
    [("package_name", name), ("package_version", ver), ("index_url", idxUrl),
     ("thoth_deployment_name", ctx.deploymentName)]

/-- One iteration of the trigger loop: decide the `verify=` keyword from
the raw template (`trigger["url"].startswith("https://")`), render the
URL, attempt delivery; every failure (rendering error, transport error,
non-2xx) is caught and logged.  Returns the emitted events and whether
this trigger succeeded. -/
def runTrigger (ctx : NotifyCtx) (name ver idxUrl : String) (t : Trigger) :
    List Event × Bool :=
  let verify : Option Bool :=
    if strStartsWith t.url "https://" then some (t.tls_verify.getD true) else none
  match pyFormat (fullEnv ctx name ver idxUrl) t.url with
  | none => ([Event.notifyFailLog name ver], false)
  | some rendered =>
    if ctx.post rendered verify then
      ([Event.deliveryAttempt rendered verify name ver idxUrl true], true)
    else
      ([Event.deliveryAttempt rendered verify name ver idxUrl false,
        Event.notifyFailLog name ver], false)

/-- The trigger loop of `release_notification`: `was_triggered` becomes
true as soon as one delivery succeeds and is never reset. -/
def runTriggers (ctx : NotifyCtx) (name ver idxUrl : String) :
    List Trigger → List Event × Bool
  | [] => ([], false)
  | t :: ts =>
    let r := runTrigger ctx name ver idxUrl t
    let rest := runTriggers ctx name ver idxUrl ts
    (r.1 ++ rest.1, r.2 || rest.2)

/-- The function `release_notification` (app.py lines 97-141): dispatch every trigger
registered under the package name; return whether at least one delivery
was attempted and succeeded. -/
def release_notification (ctx : NotifyCtx) (m : MonitoredPackages)
    (name ver idxUrl : String) : List Event × Bool :=
  runTriggers ctx name ver idxUrl (getTriggers m name)

/-! ### Reconciliation engine (`package_releases_update`, app.py lines 144-225) -/

/-- Run a loop body sequentially over a list, threading the store state
and concatenating the emitted traces — the shape of every `for` loop in
`package_releases_update`. -/
def seqRun {α σ : Type} (f : α → σ → List Event × σ) :
    List α → σ → List Event × σ
  | [], s => ([], s)
  | x :: xs, s =>
    let r := f x s
    let rest := seqRun f xs r.2
    (r.1 ++ rest.1, rest.2)

/-- The notification block guarded by `if added and monitored_packages:`
(app.py lines 211-225): reached for every non-sentinel create result —
`added` is a non-empty tuple there, hence truthy — provided the
monitoring configuration is present and non-empty.  The dispatch is
followed unconditionally by the "notified" metric increment: the
increment sits inside the `try` after a call that catches its own
failures, and the dispatcher's boolean return value is discarded. -/
def notifyBlock (ctx : NotifyCtx) (mon : Option MonitoredPackages)
    (name ver idxUrl : String) : List Event :=
  match mon with
  | none => []
  | some m =>
    if m.isEmpty then []
    else (release_notification ctx m name ver idxUrl).1 ++ [Event.notifiedInc]

/-- The body of the innermost loop (app.py lines 177-225): one idempotent
create against the store, metric/log bookkeeping on its outcome, then the
notification block. -/
def processVersion {σ : Type} (g : Graph σ) (ctx : NotifyCtx)
    (mon : Option MonitoredPackages) (oif : Bool)
    (idxUrl name ver : String) (s : σ) : List Event × σ :=
  let r := g.create s name ver idxUrl oif
  let ev0 := Event.createCall name ver idxUrl oif r.1
  match r.1 with
  | none => ([ev0, Event.sentinelDebug name ver idxUrl], r.2)
  | some (ent, existed) =>
    let evAdd :=
      if existed then [Event.alreadyPresentDebug name ver idxUrl]
      else [Event.newReleaseInfo name ver idxUrl, Event.addedInc]
    (ev0 :: (evAdd ++ notifyBlock ctx mon ent.package_name ent.package_version idxUrl),
     r.2)

/-- The per-package body (app.py lines 158-225): query the version list,
on `NotFound` log at debug level and continue, on any other exception log
at error level and continue, otherwise run the version loop. -/
def processPackage {σ : Type} (g : Graph σ) (ctx : NotifyCtx)
    (mon : Option MonitoredPackages) (oif : Bool) (idx : Index)
    (name : String) (s : σ) : List Event × σ :=
  let q := Event.versionsQuery idx.url name
  match idx.versions name with
  | .notFound => ([q, Event.skipNotFound name], s)
  | .err => ([q, Event.skipError name], s)
  | .ok vers =>
    let r := seqRun (fun v s => processVersion g ctx mon oif idx.url name v s) vers s
    (q :: r.1, r.2)

/-- The expression `package_names or package_index.get_packages()` (app.py line 158):
Python `or` falls through to the index catalog when `package_names` is
`None` or the empty list. -/
def candidatePackages (packageNames : Option (List String)) (idx : Index) :
    List String :=
  match packageNames with
  | some (n :: ns) => n :: ns
  | _ => idx.packages

/-- The per-index body (app.py lines 156-225): log the index being
checked, then run the package loop over the candidate set. -/
def processIndex {σ : Type} (g : Graph σ) (ctx : NotifyCtx)
    (mon : Option MonitoredPackages) (oif : Bool)
    (packageNames : Option (List String)) (idx : Index) (s : σ) :
    List Event × σ :=
  let r := seqRun (fun n s => processPackage g ctx mon oif idx n s)
    (candidatePackages packageNames idx) s
  (Event.indexCheck idx.url :: r.1, r.2)

/-- The function `package_releases_update` (app.py lines 144-225) over the enabled
indices returned by the store. -/
def package_releases_update {σ : Type} (g : Graph σ) (ctx : NotifyCtx)
    (mon : Option MonitoredPackages) (indices : List Index)
    (packageNames : Option (List String)) (oif : Bool) (s : σ) :
    List Event × σ :=
  seqRun (fun idx s => processIndex g ctx mon oif packageNames idx s) indices s

/-! ### CLI entry point (`cli`, app.py lines 271-358) -/

/-- An entry produced by the JSONPath extraction over the package-names
file: either a string (a package name) or any other JSON value, which
makes the CLI raise `ValueError`. -/
inductive Item where
  | str (s : String)
  | other
deriving DecidableEq, Repr

/-- The startup configuration errors: the three `ValueError`s raised by
the flag checks and the entry-type check, and the `sys.exit(2)` on an
empty resolved package list. -/
inductive CliError where
  | jsonpathWithoutFile
  | fileWithoutJsonpath
  | bothModes
  | nonStringEntry
  | emptyPackageList
deriving DecidableEq, Repr

/-- The nested entry loop (app.py lines 309-315) over the flattened
JSONPath matches: collect string entries, fail on the first non-string
one. -/
def resolveEntries : List Item → Option (List String)
  | [] => some []
  | .str s :: rest => (resolveEntries rest).map (s :: ·)
  | .other :: _ => none

/-- The exit code of a `CliError`: the empty-list case calls
`sys.exit(2)`; an uncaught `ValueError` terminates the interpreter with
exit status 1. -/
def cliErrorExitCode : CliError → Nat
  | .emptyPackageList => 2
  | _ => 1

/-- The CLI flags relevant to control flow. -/
structure CliConfig where
  only_if_package_seen : Bool
  package_names_file : Option String
  package_names_file_jsonpath : Option String
  monitoring_config : Option String
deriving DecidableEq, Repr

/-- The argument-validation and file-resolution phase of `cli` (app.py
lines 289-319), run before the store connection: the three flag checks in
program order, then (when a file was given) entry resolution and the
empty-list check.  Returns the explicit package-name list, or `none` when
no file was given. -/
def cliResolvePackageNames (cfg : CliConfig) (fileItems : List (List Item)) :
    Except CliError (Option (List String)) :=
  if cfg.package_names_file_jsonpath.isSome && cfg.package_names_file.isNone then
    .error .jsonpathWithoutFile
  else if cfg.package_names_file_jsonpath.isNone && cfg.package_names_file.isSome then
    .error .fileWithoutJsonpath
  else if cfg.only_if_package_seen && cfg.package_names_file.isSome then
    .error .bothModes
  else
    match cfg.package_names_file with
    | none => .ok none
    | some _ =>
      match resolveEntries fileItems.flatten with
      | none => .error .nonStringEntry
      | some [] => .error .emptyPackageList
      | some ns => .ok (some ns)

/-- The package-name override of app.py lines 325-328: with
`--only-if-package-seen` the store's full catalog of known package names
replaces the (necessarily absent) explicit list. -/
def cliPackageNames {σ : Type} (g : Graph σ) (s : σ) (cfg : CliConfig)
    (resolved : Option (List String)) : Option (List String) :=
  if cfg.only_if_package_seen then some (g.catalog s) else resolved

/-- The external world a CLI run interacts with. -/
structure CliWorld (σ : Type) where
  g : Graph σ
  s0 : σ
  indices : List Index
  ctx : NotifyCtx
  fileItems : List (List Item)
  monitoredLoaded : Option MonitoredPackages
  gateway : Option String
  pushOk : Bool

/-- The metrics push of the `finally` block (app.py lines 345-358): no
attempt without a configured pushgateway URL; a push failure is logged
and swallowed. -/
def metricsPushEvents (gateway : Option String) (pushOk : Bool) : List Event :=
  match gateway with
  | none => []
  | some u => Event.pushAttempt u :: (if pushOk then [] else [Event.pushFailLog])

/-- The `try/finally` around the reconciliation pass (app.py lines
340-358), with the pass outcome abstracted: the push attempt happens
whether the pass returned or raised, and the pass outcome — success trace
or exception — is returned unchanged (a push failure is never re-raised
and the finally block never swallows the pass's exception). -/
def metricsPushFinally (passResult : Except Unit (List Event))
    (gateway : Option String) (pushOk : Bool) :
    List Event × Except Unit (List Event) :=
  ((match passResult with | .ok es => es | .error _ => []) ++
     metricsPushEvents gateway pushOk,
   passResult)

/-- The full `cli` run (app.py lines 271-358): validation, store
connection, catalog query under `--only-if-package-seen`, monitoring
configuration load, the reconciliation pass with `only_if_package_seen`
left at its default `False`, and the metrics push.  Returns the trace and
the process exit code. -/
def cliRun {σ : Type} (cfg : CliConfig) (w : CliWorld σ) : List Event × Nat :=
  match cliResolvePackageNames cfg w.fileItems with
  | .error e => ([], cliErrorExitCode e)
  | .ok resolved =>
    let catEvents : List Event :=
      if cfg.only_if_package_seen then [Event.catalogQuery] else []
    let pn := cliPackageNames w.g w.s0 cfg resolved
    let monEvents : List Event :=
      if cfg.monitoring_config.isSome then [Event.monitoringLoad] else []
    let monitored :=
      if cfg.monitoring_config.isSome then w.monitoredLoaded else none
    let pass := package_releases_update w.g w.ctx monitored w.indices pn false w.s0
    (Event.storeConnect :: (catEvents ++ monEvents ++ pass.1 ++
       metricsPushEvents w.gateway w.pushOk),
     0)

/-! ### Event predicates -/

/-- The "added" metric increment. -/
def isAddedInc : Event → Bool
  | .addedInc => true
  | _ => false

/-- The "notified" metric increment. -/
def isNotifiedInc : Event → Bool
  | .notifiedInc => true
  | _ => false

/-- A store create call whose result reported a genuinely new tuple
(`existed_before = false`). -/
def isNewCreate : Event → Bool
  | .createCall _ _ _ _ (some (_, existed)) => !existed
  | _ => false

/-- A notification delivery attempt (one `requests.post`). -/
def isDelivery : Event → Bool
  | .deliveryAttempt _ _ _ _ _ _ => true
  | _ => false

/-- A successful notification delivery attempt. -/
def isSuccessDelivery : Event → Bool
  | .deliveryAttempt _ _ _ _ _ ok => ok
  | _ => false

/-- A store create call issued with `only_if_package_seen = true`. -/
def isOnlyIfSeenCreate : Event → Bool
  | .createCall _ _ _ oif _ => oif
  | _ => false

/-- The debug log of the sentinel `None` branch of the engine. -/
def isSentinelDebug : Event → Bool
  | .sentinelDebug _ _ _ => true
  | _ => false

/-- A version-list query against a package index. -/
def isVersionsQuery : Event → Bool
  | .versionsQuery _ _ => true
  | _ => false

/-- A metrics push attempt against the pushgateway. -/
def isPushAttempt : Event → Bool
  | .pushAttempt _ => true
  | _ => false

/-- Any index, store, or notification I/O. -/
def isExternalIO : Event → Bool
  | .versionsQuery _ _ => true
  | .createCall _ _ _ _ _ => true
  | .deliveryAttempt _ _ _ _ _ _ => true
  | .storeConnect => true
  | .catalogQuery => true
  | _ => false

/-- An event the dispatcher's trigger loop can emit. -/
def isDispatcherEvent : Event → Bool
  | .deliveryAttempt _ _ _ _ _ _ => true
  | .notifyFailLog _ _ => true
  | _ => false

/-- The events the reconciliation engine can emit; in particular it never
emits a push attempt. -/
def isEngineEvent : Event → Bool
  | .indexCheck _ => true
  | .versionsQuery _ _ => true
  | .skipNotFound _ => true
  | .skipError _ => true
  | .createCall _ _ _ _ _ => true
  | .sentinelDebug _ _ _ => true
  | .newReleaseInfo _ _ _ => true
  | .addedInc => true
  | .alreadyPresentDebug _ _ _ => true
  | .deliveryAttempt _ _ _ _ _ _ => true
  | .notifyFailLog _ _ => true
  | .notifiedInc => true
  | _ => false

/-- The two events the CLI path must never produce: a create call issued
with `only_if_package_seen = true`, or the sentinel debug branch. -/
def isBadCliEvent (e : Event) : Bool :=
  isOnlyIfSeenCreate e || isSentinelDebug e

/-- The log entry of a failed version retrieval for a package: the debug
line for `NotFound` (app.py line 162), the error-level exception log for
any other failure (line 170). -/
def skipEvent (name : String) : VersionsResult → List Event
  | .notFound => [Event.skipNotFound name]
  | .err => [Event.skipError name]
  | .ok _ => []

/-! ### Concrete worlds used by counterexamples and witnesses -/

/-- A store state: the set of already-known tuples, as a list. -/
def StoreState := List (String × String × String)

/-- A reference store doing a genuine idempotent create: returns
`existed_before` and inserts the tuple. -/
def refStore : Graph StoreState where
  create := fun s n v u _ =>
    (some ({ package_name := n, package_version := v }, s.contains (n, v, u)),
     if s.contains (n, v, u) then s else (n, v, u) :: s)
  catalog := fun s => (s.map (·.1)).dedup

/-- A store for which every tuple already exists. -/
def allOldStore : Graph Unit where
  create := fun _ n v _ _ => (some ({ package_name := n, package_version := v }, true), ())
  catalog := fun _ => []

/-- A store for which every tuple is genuinely new. -/
def allNewStore : Graph Unit where
  create := fun _ n v _ _ => (some ({ package_name := n, package_version := v }, false), ())
  catalog := fun _ => []

/-- A dispatcher context whose deliveries always succeed. -/
def okCtx : NotifyCtx where
  osEnv := []
  deploymentName := "dep"
  post := fun _ _ => true

/-- A dispatcher context whose deliveries always fail. -/
def failCtx : NotifyCtx where
  osEnv := []
  deploymentName := "dep"
  post := fun _ _ => false

/-- One index hosting one package with one version. -/
def oneIdx : Index where
  url := "https://pypi.org/simple"
  packages := ["widget"]
  versions := fun n => if n = "widget" then .ok ["1.0"] else .notFound

/-- A monitoring configuration with one plain-http trigger registered for
the package "widget". -/
def monWidget : MonitoredPackages :=
  [("widget", [{ url := "http://host/notify", tls_verify := none }])]

/-- CLI flags: only `--only-if-package-seen` set. -/
def cfgOnlySeen : CliConfig where
  only_if_package_seen := true
  package_names_file := none
  package_names_file_jsonpath := none
  monitoring_config := none

/-- A world whose store catalog is empty while the single index hosts one
package. -/
def worldEmptyCatalog : CliWorld Unit where
  g := allOldStore
  s0 := ()
  indices := [oneIdx]
  ctx := okCtx
  fileItems := []
  monitoredLoaded := none
  gateway := none
  pushOk := true

/-- A context whose environment renders the bare placeholder template
into an https URL. -/
def envCtx : NotifyCtx where
  osEnv := [("u", "https://e.com/x")]
  deploymentName := "dep"
  post := fun _ _ => true

/-- CLI flags supplying both package-selection modes at once. -/
def cfgBoth : CliConfig where
  only_if_package_seen := true
  package_names_file := some "names.json"
  package_names_file_jsonpath := some "$.names"
  monitoring_config := none

/-- A world over the reference store, holding one known package. -/
def worldRefStore : CliWorld StoreState where
  g := refStore
  s0 := [("widget", "1.0", "https://pypi.org/simple")]
  indices := [oneIdx]
  ctx := okCtx
  fileItems := []
  monitoredLoaded := some monWidget
  gateway := some "https://gw"
  pushOk := true

/-- An index hosting a package "bad" (absent, version retrieval raises
`NotFound`) before a package "good". -/
def failIdx : Index where
  url := "https://idx2"
  packages := ["bad", "good"]
  versions := fun n => if n = "good" then .ok ["2.0"] else .notFound

/-! ### Generic loop lemmas -/

theorem countEvents_append (p : Event → Bool) (a b : List Event) :
    countEvents p (a ++ b) = countEvents p a + countEvents p b := by
  simp [countEvents, List.filter_append]

theorem countEvents_eq_zero (p : Event → Bool) (es : List Event)
    (h : ∀ e ∈ es, p e = false) : countEvents p es = 0 := by
  simp only [countEvents, List.length_eq_zero]
  exact List.filter_eq_nil_iff.mpr (by intro e he; simp [h e he])


theorem seqRun_append {α σ : Type} (f : α → σ → List Event × σ)
    (l1 l2 : List α) (s : σ) :
    seqRun f (l1 ++ l2) s =
      ((seqRun f l1 s).1 ++ (seqRun f l2 (seqRun f l1 s).2).1,
       (seqRun f l2 (seqRun f l1 s).2).2) := by
  induction l1 generalizing s with
  | nil => simp [seqRun]
  | cons x xs ih => simp [seqRun, ih, List.append_assoc]

theorem seqRun_count_le {α σ : Type} (p : Event → Bool)
    (f : α → σ → List Event × σ) (bound : α → Nat)
    (hf : ∀ x s, countEvents p (f x s).1 ≤ bound x) :
    ∀ (l : List α) (s : σ),
      countEvents p (seqRun f l s).1 ≤ (l.map bound).sum := by
  intro l
  induction l with
  | nil => intro s; simp [seqRun, countEvents]
  | cons x xs ih =>
    intro s
    simp only [seqRun, countEvents_append, List.map_cons, List.sum_cons]
    exact Nat.add_le_add (hf x s) (ih _)

theorem seqRun_count_eq {α σ : Type} (p q : Event → Bool)
    (f : α → σ → List Event × σ)
    (hf : ∀ x s, countEvents p (f x s).1 = countEvents q (f x s).1) :
    ∀ (l : List α) (s : σ),
      countEvents p (seqRun f l s).1 = countEvents q (seqRun f l s).1 := by
  intro l
  induction l with
  | nil => intro s; simp [seqRun, countEvents]
  | cons x xs ih =>
    intro s
    simp only [seqRun, countEvents_append]
    rw [hf x s, ih]

theorem seqRun_count_zero {α σ : Type} (p : Event → Bool)
    (f : α → σ → List Event × σ)
    (hf : ∀ x s, countEvents p (f x s).1 = 0) :
    ∀ (l : List α) (s : σ), countEvents p (seqRun f l s).1 = 0 := by
  intro l
  induction l with
  | nil => intro s; simp [seqRun, countEvents]
  | cons x xs ih =>
    intro s
    simp only [seqRun, countEvents_append]
    rw [hf x s, ih]

theorem seqRun_forall {α σ : Type} (p : Event → Prop)
    (f : α → σ → List Event × σ)
    (hf : ∀ x s e, e ∈ (f x s).1 → p e) :
    ∀ (l : List α) (s : σ) (e : Event), e ∈ (seqRun f l s).1 → p e := by
  intro l
  induction l with
  | nil => intro s e he; simp [seqRun] at he
  | cons x xs ih =>
    intro s e he
    simp only [seqRun, List.mem_append] at he
    rcases he with h | h
    · exact hf x s e h
    · exact ih _ e h

theorem countEvents_cons (p : Event → Bool) (e : Event) (es : List Event) :
    countEvents p (e :: es) = (if p e then 1 else 0) + countEvents p es := by
  by_cases h : p e <;> simp [countEvents, List.filter_cons, h, Nat.add_comm]

/-! ### Shape of the dispatcher's trace -/

theorem runTrigger_events (ctx : NotifyCtx) (name ver idxUrl : String)
    (t : Trigger) :
    ∀ e ∈ (runTrigger ctx name ver idxUrl t).1, isDispatcherEvent e = true := by
  intro e he
  unfold runTrigger at he
  rcases hf : pyFormat (fullEnv ctx name ver idxUrl) t.url with _ | rendered <;>
    simp only [hf] at he
  · simp at he
    subst he; rfl
  · by_cases hp : ctx.post rendered
      (if strStartsWith t.url "https://" then some (t.tls_verify.getD true) else none) <;>
      simp [hp] at he
    · subst he; rfl
    · rcases he with h | h <;> subst h <;> rfl

theorem runTriggers_events (ctx : NotifyCtx) (name ver idxUrl : String) :
    ∀ (ts : List Trigger), ∀ e ∈ (runTriggers ctx name ver idxUrl ts).1,
      isDispatcherEvent e = true := by
  intro ts
  induction ts with
  | nil => intro e he; simp [runTriggers] at he
  | cons t ts ih =>
    intro e he
    simp only [runTriggers, List.mem_append] at he
    rcases he with h | h
    · exact runTrigger_events ctx name ver idxUrl t e h
    · exact ih e h

theorem release_notification_count_zero (p : Event → Bool)
    (hp : ∀ e, isDispatcherEvent e = true → p e = false)
    (ctx : NotifyCtx) (m : MonitoredPackages) (name ver idxUrl : String) :
    countEvents p (release_notification ctx m name ver idxUrl).1 = 0 :=
  countEvents_eq_zero p _ (fun e he =>
    hp e (runTriggers_events ctx name ver idxUrl (getTriggers m name) e he))

theorem notifyBlock_count_zero (p : Event → Bool)
    (hp : ∀ e, isDispatcherEvent e = true → p e = false)
    (hn : p Event.notifiedInc = false)
    (ctx : NotifyCtx) (mon : Option MonitoredPackages)
    (name ver idxUrl : String) :
    countEvents p (notifyBlock ctx mon name ver idxUrl) = 0 := by
  rcases mon with _ | m <;> simp only [notifyBlock]
  · simp [countEvents]
  · by_cases hm : m.isEmpty = true
    · simp [hm, countEvents]
    · rw [if_neg hm, countEvents_append, release_notification_count_zero p hp ctx m]
      simp [countEvents, List.filter_cons, hn]

/-! ### The "added" metric counts exactly the genuinely new tuples -/

theorem processVersion_added_eq_new {σ : Type} (g : Graph σ) (ctx : NotifyCtx)
    (mon : Option MonitoredPackages) (oif : Bool) (idxUrl name ver : String)
    (s : σ) :
    countEvents isAddedInc (processVersion g ctx mon oif idxUrl name ver s).1 =
      countEvents isNewCreate (processVersion g ctx mon oif idxUrl name ver s).1 := by
  unfold processVersion
  rcases hr : (g.create s name ver idxUrl oif).1 with _ | ⟨ent, existed⟩ <;>
    simp only [hr]
  · simp [countEvents, List.filter, isAddedInc, isNewCreate]
  · have hz1 := notifyBlock_count_zero isAddedInc
      (by intro e he; cases e <;> simp_all [isDispatcherEvent, isAddedInc])
      (by rfl) ctx mon ent.package_name ent.package_version idxUrl
    have hz2 := notifyBlock_count_zero isNewCreate
      (by intro e he; cases e <;> simp_all [isDispatcherEvent, isNewCreate])
      (by rfl) ctx mon ent.package_name ent.package_version idxUrl
    cases existed <;>
      simp [countEvents_cons, countEvents_append, hz1, hz2, isAddedInc, isNewCreate]

theorem processPackage_added_eq_new {σ : Type} (g : Graph σ) (ctx : NotifyCtx)
    (mon : Option MonitoredPackages) (oif : Bool) (idx : Index)
    (name : String) (s : σ) :
    countEvents isAddedInc (processPackage g ctx mon oif idx name s).1 =
      countEvents isNewCreate (processPackage g ctx mon oif idx name s).1 := by
  unfold processPackage
  rcases idx.versions name with vers | _ | _
  · simp only
    rw [countEvents_cons, countEvents_cons]
    rw [seqRun_count_eq isAddedInc isNewCreate _
      (fun v s => processVersion_added_eq_new g ctx mon oif idx.url name v s) vers s]
    rfl
  · simp [countEvents, List.filter, isAddedInc, isNewCreate]
  · simp [countEvents, List.filter, isAddedInc, isNewCreate]

theorem processIndex_added_eq_new {σ : Type} (g : Graph σ) (ctx : NotifyCtx)
    (mon : Option MonitoredPackages) (oif : Bool)
    (pn : Option (List String)) (idx : Index) (s : σ) :
    countEvents isAddedInc (processIndex g ctx mon oif pn idx s).1 =
      countEvents isNewCreate (processIndex g ctx mon oif pn idx s).1 := by
  unfold processIndex
  simp only
  rw [countEvents_cons, countEvents_cons]
  rw [seqRun_count_eq isAddedInc isNewCreate _
    (fun n s => processPackage_added_eq_new g ctx mon oif idx n s)
    (candidatePackages pn idx) s]
  rfl

/-! ### No "added" increment when the store already holds every tuple -/

theorem processVersion_added_zero {σ : Type} (g : Graph σ) (ctx : NotifyCtx)
    (mon : Option MonitoredPackages) (oif : Bool) (idxUrl name ver : String)
    (s : σ)
    (hall : ∀ (ent : Entity) (b : Bool),
      (g.create s name ver idxUrl oif).1 = some (ent, b) → b = true) :
    countEvents isAddedInc (processVersion g ctx mon oif idxUrl name ver s).1 = 0 := by
  unfold processVersion
  rcases hr : (g.create s name ver idxUrl oif).1 with _ | ⟨ent, existed⟩ <;>
    simp only [hr]
  · simp [countEvents, List.filter, isAddedInc]
  · have hz := notifyBlock_count_zero isAddedInc
      (by intro e he; cases e <;> simp_all [isDispatcherEvent, isAddedInc])
      (by rfl) ctx mon ent.package_name ent.package_version idxUrl
    have hex : existed = true := hall ent existed hr
    subst hex
    simp [countEvents_cons, countEvents_append, hz, isAddedInc]

theorem processPackage_added_zero {σ : Type} (g : Graph σ) (ctx : NotifyCtx)
    (mon : Option MonitoredPackages) (oif : Bool) (idx : Index)
    (name : String) (s : σ)
    (hall : ∀ (s : σ) (n v u : String) (ent : Entity) (b : Bool),
      (g.create s n v u oif).1 = some (ent, b) → b = true) :
    countEvents isAddedInc (processPackage g ctx mon oif idx name s).1 = 0 := by
  unfold processPackage
  rcases idx.versions name with vers | _ | _
  · simp only
    rw [countEvents_cons]
    rw [seqRun_count_zero isAddedInc _
      (fun v s => processVersion_added_zero g ctx mon oif idx.url name v s
        (fun ent b h => hall s name v idx.url ent b h)) vers s]
    rfl
  · simp [countEvents, List.filter, isAddedInc]
  · simp [countEvents, List.filter, isAddedInc]

/-- C5 claim theorem is stated below; this is the per-index step. -/
theorem processIndex_added_zero {σ : Type} (g : Graph σ) (ctx : NotifyCtx)
    (mon : Option MonitoredPackages) (oif : Bool)
    (pn : Option (List String)) (idx : Index) (s : σ)
    (hall : ∀ (s : σ) (n v u : String) (ent : Entity) (b : Bool),
      (g.create s n v u oif).1 = some (ent, b) → b = true) :
    countEvents isAddedInc (processIndex g ctx mon oif pn idx s).1 = 0 := by
  unfold processIndex
  simp only
  rw [countEvents_cons]
  rw [seqRun_count_zero isAddedInc _
    (fun n s => processPackage_added_zero g ctx mon oif idx n s hall)
    (candidatePackages pn idx) s]
  rfl

/-- C4: in every run, the "added" metric is incremented exactly once per
tuple for which the store's create operation returned
`existed_before = false`, and never for a sentinel `None` result or an
`existed_before = true` result — so the "added" count of the trace equals
the number of genuinely-new create results in the same trace. -/
theorem added_metric_equals_new_tuples {σ : Type} (g : Graph σ)
    (ctx : NotifyCtx) (mon : Option MonitoredPackages) (indices : List Index)
    (pn : Option (List String)) (oif : Bool) (s : σ) :
    countEvents isAddedInc (package_releases_update g ctx mon indices pn oif s).1 =
      countEvents isNewCreate (package_releases_update g ctx mon indices pn oif s).1 := by
  unfold package_releases_update
  exact seqRun_count_eq isAddedInc isNewCreate _
    (fun idx s => processIndex_added_eq_new g ctx mon oif pn idx s) indices s

/-- C5: a second reconciliation pass against an unchanged state, with the
store now holding every tuple (its create operation reporting
`existed_before = true` on every call), increments the "added" metric
zero times. -/
theorem second_run_added_metric_zero {σ : Type} (g : Graph σ)
    (ctx : NotifyCtx) (mon : Option MonitoredPackages) (indices : List Index)
    (pn : Option (List String)) (oif : Bool) (s : σ)
    (hall : ∀ (s : σ) (n v u : String) (ent : Entity) (b : Bool),
      (g.create s n v u oif).1 = some (ent, b) → b = true) :
    countEvents isAddedInc (package_releases_update g ctx mon indices pn oif s).1 = 0 := by
  unfold package_releases_update
  exact seqRun_count_zero isAddedInc _
    (fun idx s => processIndex_added_zero g ctx mon oif pn idx s hall) indices s

/-- Witness for C5 at a concrete input: the store answering
`existed_before = true` everywhere, one index, one package, one version. -/
theorem second_run_added_metric_zero_witness :
    countEvents isAddedInc
      (package_releases_update allOldStore okCtx none [oneIdx] none false ()).1 = 0 :=
  second_run_added_metric_zero allOldStore okCtx none [oneIdx] none false ()
    (by
      intro s n v u ent b h
      simp only [allOldStore, Option.some.injEq, Prod.mk.injEq] at h
      exact h.2.symm)

/-! ### The notification guard bug (claims C1 and C2)

In app.py line 211 the guard is `if added and monitored_packages:`.  At
that point `added` is always a non-empty tuple (the `None` case ended the
iteration with `continue` at line 192), so the guard reduces to
"monitoring configuration present and non-empty" — it does not test
`existed`.  Hence `release_notification` runs, and the "notified" metric
is incremented, for already-known releases too; and the metric increment
at line 220 discards the dispatcher's boolean return value. -/

/-- C1 fails on the code: a run over one tuple whose create operation
reports `existed_before = true`, with a trigger configured for the
package, performs one delivery attempt (and one "notified" increment)
instead of the zero the claim requires. -/
theorem existing_tuple_delivery_attempted :
    countEvents isDelivery
      (package_releases_update allOldStore okCtx (some monWidget) [oneIdx]
        none false ()).1 = 1 ∧
    countEvents isNotifiedInc
      (package_releases_update allOldStore okCtx (some monWidget) [oneIdx]
        none false ()).1 = 1 := by
  decide

/-- C2 fails on the code: a run over one genuinely-new tuple whose single
configured delivery fails has `release_notification` return `false` (no
successful attempt, so M = 0), yet the "notified" metric still reads 1 —
the call site never consults the return value. -/
theorem failed_delivery_still_counted_notified :
    (release_notification failCtx monWidget "widget" "1.0"
      "https://pypi.org/simple").2 = false ∧
    countEvents isSuccessDelivery
      (package_releases_update allNewStore failCtx (some monWidget) [oneIdx]
        none false ()).1 = 0 ∧
    countEvents isNotifiedInc
      (package_releases_update allNewStore failCtx (some monWidget) [oneIdx]
        none false ()).1 = 1 := by
  decide

/-! ### Claim C3: the only-if-seen candidate set -/

/-- C3 counterexample: with `--only-if-package-seen` and an empty store
catalog, the claim demands that no package be evaluated, but the run
queries the version list of the index's own package — Python's
`package_names or package_index.get_packages()` falls back to the index
catalog on an empty list. -/
theorem empty_catalog_falls_back_to_index :
    countEvents isVersionsQuery (cliRun cfgOnlySeen worldEmptyCatalog).1 = 1 ∧
    ¬ countEvents isVersionsQuery (cliRun cfgOnlySeen worldEmptyCatalog).1 = 0 := by
  decide

/-- C3 amended: with `--only-if-package-seen` the CLI hands the store's
full catalog of known package names to the engine, independent of index;
for every index the engine then evaluates exactly that catalog when it is
non-empty, and falls back to the index's own full catalog when the store
catalog is empty. -/
theorem only_if_seen_candidate_set {σ : Type} (g : Graph σ) (s : σ)
    (cfg : CliConfig) (resolved : Option (List String)) (idx : Index)
    (h : cfg.only_if_package_seen = true) :
    cliPackageNames g s cfg resolved = some (g.catalog s) ∧
    candidatePackages (cliPackageNames g s cfg resolved) idx =
      (if (g.catalog s).isEmpty then idx.packages else g.catalog s) := by
  constructor
  · simp [cliPackageNames, h]
  · simp only [cliPackageNames, h, if_true]
    rcases hc : g.catalog s with _ | ⟨n, ns⟩ <;> simp [candidatePackages]

/-- Witness for the amended C3 at concrete inputs, once with a non-empty
catalog and once with an empty one. -/
theorem only_if_seen_candidate_set_witness :
    (cliPackageNames refStore [("widget", "1.0", "u")] cfgOnlySeen none =
       some (refStore.catalog [("widget", "1.0", "u")]) ∧
     candidatePackages
       (cliPackageNames refStore [("widget", "1.0", "u")] cfgOnlySeen none) oneIdx =
       (if (refStore.catalog [("widget", "1.0", "u")]).isEmpty then oneIdx.packages
        else refStore.catalog [("widget", "1.0", "u")])) ∧
    (cliPackageNames allOldStore () cfgOnlySeen none =
       some (allOldStore.catalog ()) ∧
     candidatePackages (cliPackageNames allOldStore () cfgOnlySeen none) oneIdx =
       (if (allOldStore.catalog ()).isEmpty then oneIdx.packages
        else allOldStore.catalog ())) :=
  ⟨only_if_seen_candidate_set refStore [("widget", "1.0", "u")] cfgOnlySeen none
     oneIdx (by decide),
   only_if_seen_candidate_set allOldStore () cfgOnlySeen none oneIdx (by decide)⟩

/-! ### Claim C7: what decides the TLS-verification keyword -/

/-- C7 counterexample: the trigger's template is `\x7bu\x7d`, which does
not start with `https://`, so no `verify=` keyword is passed — yet the
rendered URL does use the https scheme, so a delivery with verify absent
and an https rendered URL occurs, refuting "passed iff the rendered URL
uses https". -/
theorem verify_flag_ignores_rendered_scheme :
    (runTrigger envCtx "p" "1" "i" { url := "{u}", tls_verify := none }).1 =
      [Event.deliveryAttempt "https://e.com/x" none "p" "1" "i" true] ∧
    strStartsWith "https://e.com/x" "https://" = true ∧
    ¬ ((none : Option Bool).isSome = true ↔
        strStartsWith "https://e.com/x" "https://" = true) := by
  decide

/-- C7 amended: the `verify=` keyword of a delivery attempt is determined
by the trigger's URL template before substitution —
`trigger["url"].startswith("https://")` — and carries the trigger's
optional flag, defaulting to verify enabled. -/
theorem verify_flag_from_template (ctx : NotifyCtx)
    (name ver idxUrl : String) (t : Trigger) (rendered : String)
    (vf : Option Bool) (nm vr iu : String) (ok : Bool)
    (h : Event.deliveryAttempt rendered vf nm vr iu ok ∈
      (runTrigger ctx name ver idxUrl t).1) :
    vf = if strStartsWith t.url "https://" then some (t.tls_verify.getD true)
         else none := by
  unfold runTrigger at h
  rcases hf : pyFormat (fullEnv ctx name ver idxUrl) t.url with _ | r <;>
    simp only [hf] at h
  · simp at h
  · by_cases hp : ctx.post r
        (if strStartsWith t.url "https://" then some (t.tls_verify.getD true)
         else none) <;>
      simp [hp] at h
    · exact h.2.1
    · exact h.2.1

/-- Witness for the amended C7: an https template with
`tls_verify: false`; the attempt carries `verify = some false`. -/
theorem verify_flag_from_template_witness :
    (Event.deliveryAttempt "https://h/x" (some false) "p" "1" "i" true ∈
       (runTrigger okCtx "p" "1" "i"
         { url := "https://h/x", tls_verify := some false }).1) ∧
    (some false : Option Bool) =
      (if strStartsWith "https://h/x" "https://"
       then some ((some false : Option Bool).getD true) else none) :=
  ⟨by decide,
   verify_flag_from_template okCtx "p" "1" "i"
     { url := "https://h/x", tls_verify := some false }
     "https://h/x" (some false) "p" "1" "i" true (by decide)⟩

/-! ### Claim C8: the metrics push -/

/-- C8 counterexample: a run that reaches the reconciliation pass but has
no pushgateway URL configured (`PROMETHEUS_PUSHGATEWAY_URL` unset, app.py
line 346) performs zero push attempts, not the "exactly one" the claim
requires of every run. -/
theorem no_gateway_no_push_attempt :
    countEvents isPushAttempt (metricsPushFinally (.ok []) none true).1 = 0 ∧
    ¬ countEvents isPushAttempt (metricsPushFinally (.ok []) none true).1 = 1 := by
  decide

theorem notifyBlock_events (ctx : NotifyCtx) (mon : Option MonitoredPackages)
    (name ver idxUrl : String) :
    ∀ e ∈ notifyBlock ctx mon name ver idxUrl,
      isDispatcherEvent e = true ∨ e = Event.notifiedInc := by
  intro e he
  rcases mon with _ | m <;> simp only [notifyBlock] at he
  · simp at he
  · by_cases hm : m.isEmpty = true
    · rw [if_pos hm] at he; simp at he
    · rw [if_neg hm] at he
      rcases List.mem_append.mp he with h | h
      · exact Or.inl
          (runTriggers_events ctx name ver idxUrl (getTriggers m name) e h)
      · simp at h; exact Or.inr h

theorem dispatcher_is_engine (e : Event) (h : isDispatcherEvent e = true) :
    isEngineEvent e = true := by
  cases e <;> first | rfl | exact absurd h (by simp [isDispatcherEvent])

theorem processVersion_events {σ : Type} (g : Graph σ) (ctx : NotifyCtx)
    (mon : Option MonitoredPackages) (oif : Bool) (idxUrl name ver : String)
    (s : σ) :
    ∀ e ∈ (processVersion g ctx mon oif idxUrl name ver s).1,
      isEngineEvent e = true := by
  intro e he
  unfold processVersion at he
  rcases hr : (g.create s name ver idxUrl oif).1 with _ | ⟨ent, existed⟩ <;>
    simp only [hr] at he
  · simp at he
    rcases he with h | h <;> subst h <;> rfl
  · simp at he
    rcases he with h | h | h
    · subst h; rfl
    · cases existed <;> simp at h <;>
        first
        | (subst h; rfl)
        | (rcases h with h | h <;> subst h <;> rfl)
    · rcases notifyBlock_events ctx mon ent.package_name ent.package_version
        idxUrl e h with h3 | h3
      · exact dispatcher_is_engine e h3
      · subst h3; rfl

theorem processPackage_events {σ : Type} (g : Graph σ) (ctx : NotifyCtx)
    (mon : Option MonitoredPackages) (oif : Bool) (idx : Index)
    (name : String) (s : σ) :
    ∀ e ∈ (processPackage g ctx mon oif idx name s).1,
      isEngineEvent e = true := by
  intro e he
  unfold processPackage at he
  rcases hv : idx.versions name with vers | _ | _ <;> simp only [hv] at he
  · rcases List.mem_cons.mp he with h | h
    · subst h; rfl
    · exact seqRun_forall (fun e => isEngineEvent e = true) _
        (fun v s e he => processVersion_events g ctx mon oif idx.url name v s e he)
        vers s e h
  · simp at he
    rcases he with h | h <;> subst h <;> rfl
  · simp at he
    rcases he with h | h <;> subst h <;> rfl

theorem processIndex_events {σ : Type} (g : Graph σ) (ctx : NotifyCtx)
    (mon : Option MonitoredPackages) (oif : Bool)
    (pn : Option (List String)) (idx : Index) (s : σ) :
    ∀ e ∈ (processIndex g ctx mon oif pn idx s).1, isEngineEvent e = true := by
  intro e he
  unfold processIndex at he
  rcases List.mem_cons.mp he with h | h
  · subst h; rfl
  · exact seqRun_forall (fun e => isEngineEvent e = true) _
      (fun n s e he => processPackage_events g ctx mon oif idx n s e he)
      (candidatePackages pn idx) s e h

theorem package_releases_update_events {σ : Type} (g : Graph σ)
    (ctx : NotifyCtx) (mon : Option MonitoredPackages) (indices : List Index)
    (pn : Option (List String)) (oif : Bool) (s : σ) :
    ∀ e ∈ (package_releases_update g ctx mon indices pn oif s).1,
      isEngineEvent e = true := by
  unfold package_releases_update
  exact seqRun_forall (fun e => isEngineEvent e = true) _
    (fun idx s e he => processIndex_events g ctx mon oif pn idx s e he) indices s

theorem engine_no_push {σ : Type} (g : Graph σ) (ctx : NotifyCtx)
    (mon : Option MonitoredPackages) (indices : List Index)
    (pn : Option (List String)) (oif : Bool) (s : σ) :
    countEvents isPushAttempt (package_releases_update g ctx mon indices pn oif s).1 = 0 :=
  countEvents_eq_zero _ _ (fun e he => by
    have := package_releases_update_events g ctx mon indices pn oif s e he
    cases e <;> simp_all [isEngineEvent, isPushAttempt])

/-- C8 amended: for a pass outcome that either raised or returned the
reconciliation engine's trace, exactly one metrics-push attempt occurs
when a pushgateway URL is configured — after the pass, regardless of its
outcome — and none occurs when no URL is configured; a push failure is
logged but never re-raised (the pass outcome is returned unchanged). -/
theorem push_attempt_iff_gateway {σ : Type} (g : Graph σ) (ctx : NotifyCtx)
    (mon : Option MonitoredPackages) (indices : List Index)
    (pn : Option (List String)) (oif : Bool) (s : σ)
    (passResult : Except Unit (List Event)) (gateway : Option String)
    (pushOk : Bool)
    (hpass : passResult = .error () ∨
      passResult = .ok (package_releases_update g ctx mon indices pn oif s).1) :
    countEvents isPushAttempt (metricsPushFinally passResult gateway pushOk).1 =
      (if gateway.isSome then 1 else 0) ∧
    (metricsPushFinally passResult gateway pushOk).1 =
      (match passResult with | .ok es => es | .error _ => []) ++
        metricsPushEvents gateway pushOk ∧
    (metricsPushFinally passResult gateway pushOk).2 = passResult := by
  have hpush : countEvents isPushAttempt (metricsPushEvents gateway pushOk) =
      (if gateway.isSome then 1 else 0) := by
    rcases gateway with _ | u <;> cases pushOk <;>
      simp [metricsPushEvents, countEvents, List.filter, isPushAttempt]
  rcases hpass with h | h <;> subst h <;> refine ⟨?_, rfl, rfl⟩
  · simp only [metricsPushFinally]
    rw [countEvents_append, hpush]
    simp [countEvents]
  · simp only [metricsPushFinally]
    rw [countEvents_append, hpush, engine_no_push]
    simp

/-- Witness for the amended C8, with the pass outcome taken from an
actual engine run, a configured gateway, and a failing push. -/
theorem push_attempt_iff_gateway_witness :
    countEvents isPushAttempt
      (metricsPushFinally
        (.ok (package_releases_update allNewStore okCtx none [oneIdx] none false ()).1)
        (some "https://gw") false).1 =
      (if (some "https://gw" : Option String).isSome then 1 else 0) ∧
    (metricsPushFinally
        (.ok (package_releases_update allNewStore okCtx none [oneIdx] none false ()).1)
        (some "https://gw") false).1 =
      (match (.ok (package_releases_update allNewStore okCtx none [oneIdx] none false ()).1 :
          Except Unit (List Event)) with
        | .ok es => es | .error _ => []) ++
        metricsPushEvents (some "https://gw") false ∧
    (metricsPushFinally
        (.ok (package_releases_update allNewStore okCtx none [oneIdx] none false ()).1)
        (some "https://gw") false).2 =
      (.ok (package_releases_update allNewStore okCtx none [oneIdx] none false ()).1 :
        Except Unit (List Event)) :=
  push_attempt_iff_gateway allNewStore okCtx none [oneIdx] none false ()
    (.ok (package_releases_update allNewStore okCtx none [oneIdx] none false ()).1)
    (some "https://gw") false (Or.inr rfl)

/-! ### Claim C9: configuration errors end the process before any I/O -/

/-- C9: every configuration-error input — both package-selection modes
supplied, a JSONPath without a file, a file without a JSONPath, or an
explicit package list that resolves to empty — makes the CLI terminate
with a non-zero exit status and an empty trace: no index, store, or
notification I/O is ever performed. -/
theorem config_errors_exit_before_io {σ : Type} (cfg : CliConfig)
    (w : CliWorld σ)
    (h : (cfg.only_if_package_seen = true ∧ cfg.package_names_file.isSome = true) ∨
         (cfg.package_names_file_jsonpath.isSome = true ∧
           cfg.package_names_file = none) ∨
         (cfg.package_names_file_jsonpath = none ∧
           cfg.package_names_file.isSome = true) ∨
         (cfg.package_names_file.isSome = true ∧
           resolveEntries w.fileItems.flatten = some [])) :
    (cliRun cfg w).2 ≠ 0 ∧ (cliRun cfg w).1 = [] := by
  have herr : ∃ e, cliResolvePackageNames cfg w.fileItems = Except.error e := by
    unfold cliResolvePackageNames
    by_cases h1 : cfg.package_names_file_jsonpath.isSome &&
        cfg.package_names_file.isNone
    · exact ⟨CliError.jsonpathWithoutFile, by rw [if_pos h1]⟩
    · rw [if_neg h1]
      by_cases h2 : cfg.package_names_file_jsonpath.isNone &&
          cfg.package_names_file.isSome
      · exact ⟨CliError.fileWithoutJsonpath, by rw [if_pos h2]⟩
      · rw [if_neg h2]
        by_cases h3 : cfg.only_if_package_seen &&
            cfg.package_names_file.isSome
        · exact ⟨CliError.bothModes, by rw [if_pos h3]⟩
        · rw [if_neg h3]
          rcases h with ⟨ha, hb⟩ | ⟨ha, hb⟩ | ⟨ha, hb⟩ | ⟨ha, hb⟩
          · exact absurd (by rw [ha, hb]; rfl) h3
          · exact absurd (by rw [ha, hb]; rfl) h1
          · exact absurd (by rw [ha, hb]; rfl) h2
          · rcases hfile : cfg.package_names_file with _ | f
            · rw [hfile] at ha; simp at ha
            · simp only [hfile]
              rw [hb]
              exact ⟨CliError.emptyPackageList, rfl⟩
  obtain ⟨e, he⟩ := herr
  unfold cliRun
  rw [he]
  refine ⟨?_, rfl⟩
  cases e <;> simp [cliErrorExitCode]

/-- Witness for C9: both `--only-if-package-seen` and a package-names
file supplied (with a JSONPath, so the mutual-exclusion check itself
fires). -/
theorem config_errors_exit_before_io_witness :
    ((cfgBoth.only_if_package_seen = true ∧
        cfgBoth.package_names_file.isSome = true) ∨
      (cfgBoth.package_names_file_jsonpath.isSome = true ∧
        cfgBoth.package_names_file = none) ∨
      (cfgBoth.package_names_file_jsonpath = none ∧
        cfgBoth.package_names_file.isSome = true) ∨
      (cfgBoth.package_names_file.isSome = true ∧
        resolveEntries ([] : List (List Item)).flatten = some [])) ∧
    ((cliRun cfgBoth worldEmptyCatalog).2 ≠ 0 ∧
      (cliRun cfgBoth worldEmptyCatalog).1 = []) :=
  ⟨Or.inl ⟨rfl, rfl⟩,
   config_errors_exit_before_io cfgBoth worldEmptyCatalog (Or.inl ⟨rfl, rfl⟩)⟩

/-! ### Claim C10: the CLI path never uses the only-if-seen create mode -/

theorem countEvents_le (p q : Event → Bool)
    (h : ∀ e, p e = true → q e = true) (es : List Event) :
    countEvents p es ≤ countEvents q es := by
  induction es with
  | nil => simp [countEvents]
  | cons e es ih =>
    rw [countEvents_cons, countEvents_cons]
    by_cases hp : p e = true
    · rw [if_pos hp, if_pos (h e hp)]
      omega
    · rw [if_neg hp]
      have : (if q e then 1 else 0) + countEvents q es ≥ countEvents q es := by
        by_cases hq : q e = true <;> simp [hq]
      omega

theorem processVersion_cli_zero {σ : Type} (g : Graph σ) (ctx : NotifyCtx)
    (mon : Option MonitoredPackages) (idxUrl name ver : String) (s : σ)
    (hstore : (g.create s name ver idxUrl false).1 ≠ none) :
    countEvents isBadCliEvent (processVersion g ctx mon false idxUrl name ver s).1 = 0 := by
  unfold processVersion
  rcases hr : (g.create s name ver idxUrl false).1 with _ | ⟨ent, existed⟩
  · exact absurd hr hstore
  · simp only [hr]
    have hz := notifyBlock_count_zero isBadCliEvent
      (by intro e he; cases e <;>
        simp_all [isDispatcherEvent, isBadCliEvent, isOnlyIfSeenCreate, isSentinelDebug])
      (by rfl) ctx mon ent.package_name ent.package_version idxUrl
    cases existed <;>
      simp [countEvents_cons, countEvents_append, hz, isBadCliEvent,
        isOnlyIfSeenCreate, isSentinelDebug]

theorem processPackage_cli_zero {σ : Type} (g : Graph σ) (ctx : NotifyCtx)
    (mon : Option MonitoredPackages) (idx : Index) (name : String) (s : σ)
    (hstore : ∀ (s : σ) (n v u : String), (g.create s n v u false).1 ≠ none) :
    countEvents isBadCliEvent (processPackage g ctx mon false idx name s).1 = 0 := by
  unfold processPackage
  rcases idx.versions name with vers | _ | _
  · simp only
    rw [countEvents_cons]
    rw [seqRun_count_zero isBadCliEvent _
      (fun v s => processVersion_cli_zero g ctx mon idx.url name v s
        (hstore s name v idx.url)) vers s]
    rfl
  · simp [countEvents, List.filter, isBadCliEvent, isOnlyIfSeenCreate, isSentinelDebug]
  · simp [countEvents, List.filter, isBadCliEvent, isOnlyIfSeenCreate, isSentinelDebug]

theorem processIndex_cli_zero {σ : Type} (g : Graph σ) (ctx : NotifyCtx)
    (mon : Option MonitoredPackages) (pn : Option (List String)) (idx : Index)
    (s : σ)
    (hstore : ∀ (s : σ) (n v u : String), (g.create s n v u false).1 ≠ none) :
    countEvents isBadCliEvent (processIndex g ctx mon false pn idx s).1 = 0 := by
  unfold processIndex
  simp only
  rw [countEvents_cons]
  rw [seqRun_count_zero isBadCliEvent _
    (fun n s => processPackage_cli_zero g ctx mon idx n s hstore)
    (candidatePackages pn idx) s]
  rfl

theorem package_releases_update_cli_zero {σ : Type} (g : Graph σ)
    (ctx : NotifyCtx) (mon : Option MonitoredPackages) (indices : List Index)
    (pn : Option (List String)) (s : σ)
    (hstore : ∀ (s : σ) (n v u : String), (g.create s n v u false).1 ≠ none) :
    countEvents isBadCliEvent (package_releases_update g ctx mon indices pn false s).1 = 0 := by
  unfold package_releases_update
  exact seqRun_count_zero isBadCliEvent _
    (fun idx s => processIndex_cli_zero g ctx mon pn idx s hstore) indices s

theorem metricsPushEvents_cli_zero (gateway : Option String) (pushOk : Bool) :
    countEvents isBadCliEvent (metricsPushEvents gateway pushOk) = 0 := by
  rcases gateway with _ | u <;> cases pushOk <;>
    simp [metricsPushEvents, countEvents, List.filter, isBadCliEvent,
      isOnlyIfSeenCreate, isSentinelDebug]

/-- C10: the CLI entry point leaves `only_if_package_seen` at its default
`False` when invoking the engine (app.py line 342 passes only
`package_names`), so a CLI run contains no create call with
`only_if_seen = true`; and under the store contract of §6 — the sentinel
is only possible when `only_if_seen` is true — the sentinel debug-and-skip
branch is unreachable: no such event ever appears in a CLI trace. -/
theorem cli_never_only_if_seen_create {σ : Type} (cfg : CliConfig)
    (w : CliWorld σ)
    (hstore : ∀ (s : σ) (n v u : String), (w.g.create s n v u false).1 ≠ none) :
    countEvents isOnlyIfSeenCreate (cliRun cfg w).1 = 0 ∧
    countEvents isSentinelDebug (cliRun cfg w).1 = 0 := by
  have hbad : countEvents isBadCliEvent (cliRun cfg w).1 = 0 := by
    unfold cliRun
    rcases hres : cliResolvePackageNames cfg w.fileItems with e0 | pn0 <;>
      simp only [hres]
    · simp [countEvents]
    · rw [countEvents_cons, countEvents_append, countEvents_append,
        countEvents_append]
      rw [package_releases_update_cli_zero w.g w.ctx _ w.indices _ w.s0 hstore]
      rw [metricsPushEvents_cli_zero]
      have hcat : countEvents isBadCliEvent
          (if cfg.only_if_package_seen then [Event.catalogQuery] else []) = 0 := by
        by_cases hs : cfg.only_if_package_seen = true <;>
          simp [hs, countEvents, List.filter, isBadCliEvent,
            isOnlyIfSeenCreate, isSentinelDebug]
      have hmon : countEvents isBadCliEvent
          (if cfg.monitoring_config.isSome then [Event.monitoringLoad] else []) = 0 := by
        by_cases hs : cfg.monitoring_config.isSome = true <;>
          simp [hs, countEvents, List.filter, isBadCliEvent,
            isOnlyIfSeenCreate, isSentinelDebug]
      rw [hcat, hmon]
      rfl
  constructor
  · have hle := countEvents_le isOnlyIfSeenCreate isBadCliEvent
      (by intro e h; simp [isBadCliEvent, h]) (cliRun cfg w).1
    omega
  · have hle := countEvents_le isSentinelDebug isBadCliEvent
      (by intro e h; simp [isBadCliEvent, h]) (cliRun cfg w).1
    omega

/-- Witness for C10: a CLI run against the reference store (which never
returns the sentinel for `only_if_seen = false`). -/
theorem cli_never_only_if_seen_create_witness :
    countEvents isOnlyIfSeenCreate (cliRun cfgOnlySeen worldRefStore).1 = 0 ∧
    countEvents isSentinelDebug (cliRun cfgOnlySeen worldRefStore).1 = 0 :=
  cli_never_only_if_seen_create cfgOnlySeen worldRefStore
    (by intro s n v u; simp [worldRefStore, refStore])

/-! ### Claim C6: per-package failure isolation -/

theorem seqRun_cons {α σ : Type} (f : α → σ → List Event × σ) (x : α)
    (l : List α) (s : σ) :
    seqRun f (x :: l) s =
      ((f x s).1 ++ (seqRun f l (f x s).2).1, (seqRun f l (f x s).2).2) := rfl

theorem processPackage_fail {σ : Type} (g : Graph σ) (ctx : NotifyCtx)
    (mon : Option MonitoredPackages) (oif : Bool) (idx : Index) (P : String)
    (s : σ) (hfail : idx.versions P = .notFound ∨ idx.versions P = .err) :
    processPackage g ctx mon oif idx P s =
      (Event.versionsQuery idx.url P :: skipEvent P (idx.versions P), s) := by
  unfold processPackage
  rcases hfail with h | h <;> rw [h] <;> simp [skipEvent]

/-- C6: when version retrieval fails for a candidate package P of an
index — `NotFound` or any other exception — only P is skipped: it
contributes exactly its query event and one skip log (debug level for
`NotFound`, error level otherwise) and leaves the store state untouched;
the packages after P in the same index are still processed, from the very
state reached before P; and the indices after the current one are still
processed in turn. -/
theorem version_failure_isolated {σ : Type} (g : Graph σ) (ctx : NotifyCtx)
    (mon : Option MonitoredPackages) (oif : Bool) (pn : Option (List String))
    (is1 is2 : List Index) (idx : Index) (P : String) (ps1 ps2 : List String)
    (s : σ)
    (hcand : candidatePackages pn idx = ps1 ++ P :: ps2)
    (hfail : idx.versions P = .notFound ∨ idx.versions P = .err) :
    processPackage g ctx mon oif idx P s =
      (Event.versionsQuery idx.url P :: skipEvent P (idx.versions P), s) ∧
    processIndex g ctx mon oif pn idx s =
      (let f := fun n s => processPackage g ctx mon oif idx n s
       let r1 := seqRun f ps1 s
       let r2 := seqRun f ps2 r1.2
       (Event.indexCheck idx.url ::
          (r1.1 ++
            ((Event.versionsQuery idx.url P :: skipEvent P (idx.versions P)) ++
              r2.1)),
        r2.2)) ∧
    package_releases_update g ctx mon (is1 ++ idx :: is2) pn oif s =
      (let r1 := package_releases_update g ctx mon is1 pn oif s
       let r2 := processIndex g ctx mon oif pn idx r1.2
       let r3 := package_releases_update g ctx mon is2 pn oif r2.2
       (r1.1 ++ (r2.1 ++ r3.1), r3.2)) := by
  have hP : ∀ s' : σ, processPackage g ctx mon oif idx P s' =
      (Event.versionsQuery idx.url P :: skipEvent P (idx.versions P), s') :=
    fun s' => processPackage_fail g ctx mon oif idx P s' hfail
  refine ⟨hP s, ?_, ?_⟩
  · unfold processIndex
    rw [hcand, seqRun_append, seqRun_cons]
    simp only [hP]
  · unfold package_releases_update
    rw [seqRun_append, seqRun_cons]

/-- Witness for C6 at a concrete input: package "bad" fails with
`NotFound` before "good" in the same index, another index follows. -/
theorem version_failure_isolated_witness :
    (candidatePackages none failIdx = [] ++ "bad" :: ["good"] ∧
      (failIdx.versions "bad" = .notFound ∨ failIdx.versions "bad" = .err)) ∧
    (processPackage allNewStore okCtx none false failIdx "bad" () =
        (Event.versionsQuery failIdx.url "bad" ::
          skipEvent "bad" (failIdx.versions "bad"), ()) ∧
      processIndex allNewStore okCtx none false none failIdx () =
        (let f := fun n s => processPackage allNewStore okCtx none false failIdx n s
         let r1 := seqRun f [] ()
         let r2 := seqRun f ["good"] r1.2
         (Event.indexCheck failIdx.url ::
            (r1.1 ++
              ((Event.versionsQuery failIdx.url "bad" ::
                 skipEvent "bad" (failIdx.versions "bad")) ++ r2.1)),
          r2.2)) ∧
      package_releases_update allNewStore okCtx none ([] ++ failIdx :: [oneIdx])
          none false () =
        (let r1 := package_releases_update allNewStore okCtx none [] none false ()
         let r2 := processIndex allNewStore okCtx none false none failIdx r1.2
         let r3 := package_releases_update allNewStore okCtx none [oneIdx] none
           false r2.2
         (r1.1 ++ (r2.1 ++ r3.1), r3.2))) :=
  ⟨⟨rfl, Or.inl (by decide)⟩,
   version_failure_isolated allNewStore okCtx none false none [] [oneIdx] failIdx
     "bad" [] ["good"] () rfl (Or.inl (by decide))⟩

end PackageReleases
